import Mathlib

set_option maxHeartbeats 1000000

/-!
Verification of the filelock-rs crate (src/lib.rs and src/pid.rs) against its
natural-language specification.

The embedding models the two source files:

* `src/lib.rs`: the `FdLock` trait.  The primitive `flock` method has two
  platform variants.  On non-Solaris targets it calls `libc::flock(fd, operation)`
  directly; on Solaris it emulates `flock` through `fcntl` record locking.
  OS syscalls are modelled by an oracle function supplied as an argument
  (mapping the syscall's arguments to its return value and the value of
  `errno`), and each embedded function also returns the trace of syscall
  invocations it performed, so that "passed verbatim" and "no syscall
  performed" are provable statements.

* `src/pid.rs`: the `Pid` structure, its constructor `Pid::new` and its
  `Drop` implementation.  Filesystem and lock-table effects are modelled by
  explicit state passing over `SysState`; the outcome of each fallible OS
  step (create / try_lock_exclusive / write_all, and unlock / remove_file
  for drop) is supplied by an environment record, and the constructor also
  returns the ordered trace of steps it attempted.

Machine integers: the `flock` operation codes are small non-negative bit
flags, modelled as `Nat` with `&&&` / `|||`; syscall return values and errno
are modelled as `Int` (they can be negative).  No value in the source comes
near an overflow boundary.
-/

/-- Error type mirroring `std::io::Error` as the source uses it:
`io::Error::last_os_error()` carries the OS error code (the message is the
OS's `strerror` of that code, a function of the code), while
`io::Error::new(io::ErrorKind::Other, msg)` carries a message and no OS
code.  The two constructors are distinct, so the two kinds of failure are
distinguishable. -/
inductive IOError where
  | osError (code : Int)
  | unsupported (msg : String)
deriving DecidableEq, Repr

/-- Value of `libc::LOCK_SH` (shared lock), identical on Linux and Solaris. -/
def LOCK_SH : Nat := 1

/-- Value of `libc::LOCK_EX` (exclusive lock). -/
def LOCK_EX : Nat := 2

/-- Value of `libc::LOCK_NB` (non-blocking modifier). -/
def LOCK_NB : Nat := 4

/-- Value of `libc::LOCK_UN` (unlock). -/
def LOCK_UN : Nat := 8

/-- Value of `libc::F_RDLCK` on Solaris (read record lock). -/
def F_RDLCK : Nat := 1

/-- Value of `libc::F_WRLCK` on Solaris (write record lock). -/
def F_WRLCK : Nat := 2

/-- Value of `libc::F_UNLCK` on Solaris (remove record lock). -/
def F_UNLCK : Nat := 3

/-- Value of `libc::F_SETLK` on Solaris (set record lock, non-waiting). -/
def F_SETLK : Nat := 6

/-- Value of `libc::F_SETLKW` on Solaris (set record lock, waiting). -/
def F_SETLKW : Nat := 7

/-- The `libc::flock` record built by the Solaris emulation path
(src/lib.rs lines 113-122). -/
structure FlockRec where
  l_type : Nat
  l_whence : Int
  l_start : Int
  l_len : Int
  l_sysid : Int
  l_pid : Int
  l_pad : List Int
deriving DecidableEq, Repr

/-- The record as initialized in src/lib.rs lines 113-122: every field zero
(before `l_type` is overwritten). -/
def flockRecZero : FlockRec :=
  { l_type := 0, l_whence := 0, l_start := 0, l_len := 0, l_sysid := 0,
    l_pid := 0, l_pad := [0, 0, 0, 0] }

/-- Embedding of `FdLock::flock` for `cfg(not(target_os = "solaris"))`
(src/lib.rs lines 92-99):

```
let ret = unsafe { libc::flock(self.as_raw_fd(), operation) };
if ret < 0 { return Err(io::Error::last_os_error()); }
Ok(())
```

`sys fd op` is the oracle for the `libc::flock` syscall, returning the
syscall's return value and the resulting `errno`.  The second component of
the result is the trace of syscall invocations (argument pairs). -/
def flockPrimary (fd : Int) (operation : Nat) (sys : Int → Nat → Int × Int) :
    Except IOError Unit × List (Int × Nat) :=
  let r := sys fd operation
  (if r.1 < 0 then .error (.osError r.2) else .ok (), [(fd, operation)])

/-- The tail of the Solaris emulation path (src/lib.rs lines 136-146), after
the `l_type` of the record has been chosen: pick the `fcntl` command from
the non-blocking bit, invoke `fcntl`, convert a negative return into the
last OS error.  The source tests `(flag & libc::LOCK_NB) != 0` where `flag`
is an unbound name (the function does not compile on Solaris); the evident
intent, embedded here, is the method's `operation` argument.  Likewise the
source's `file.as_raw_fd()` is read as `self.as_raw_fd()`. -/
def flockSolarisCall (fd : Int) (operation : Nat) (lk : FlockRec)
    (sys : Int → Nat → FlockRec → Int × Int) :
    Except IOError Unit × List (Int × Nat × FlockRec) :=
  let cmd := if operation &&& LOCK_NB ≠ 0 then F_SETLK else F_SETLKW
  let r := sys fd cmd lk
  (if r.1 < 0 then .error (.osError r.2) else .ok (), [(fd, cmd, lk)])

/-- Embedding of `FdLock::flock` for `cfg(target_os = "solaris")`
(src/lib.rs lines 111-147).  The operation code is mapped to an `l_type`
for a whole-file record lock (the record keeps `l_whence = 0`, `l_start = 0`,
`l_len = 0`, i.e. offset 0 to end of file):

```
flock.l_type = if operation & LOCK_UN != 0 { LOCK_UN }
    else if operation & LOCK_EX != 0 { libc::F_WRLCK }
    else if operation & LOCK_SH != 0 { libc::F_RDLCK }
    else { return Err(io::Error::new(Other, "unexpected flock() operation")) };
```

Note the unlock branch stores `LOCK_UN` (the `flock()` code, value 8) into
`l_type`, not `libc::F_UNLCK` (value 3).  `sys fd cmd lk` is the oracle for
the `libc::fcntl(fd, cmd, &lk)` syscall; the trace lists its invocations. -/
def flockSolaris (fd : Int) (operation : Nat)
    (sys : Int → Nat → FlockRec → Int × Int) :
    Except IOError Unit × List (Int × Nat × FlockRec) :=
  if operation &&& LOCK_UN ≠ 0 then
    flockSolarisCall fd operation { flockRecZero with l_type := LOCK_UN } sys
  else if operation &&& LOCK_EX ≠ 0 then
    flockSolarisCall fd operation { flockRecZero with l_type := F_WRLCK } sys
  else if operation &&& LOCK_SH ≠ 0 then
    flockSolarisCall fd operation { flockRecZero with l_type := F_RDLCK } sys
  else
    (.error (.unsupported "unexpected flock() operation"), [])

/-- Embedding of `FdLock::lock_shared` (src/lib.rs): `self.flock(libc::LOCK_SH)`.
The five public operations are trait default methods whose body is a single
call to `self.flock` with a composed operation code; `flockImpl` stands for
the platform's `flock` method, abstracted over its result type so the same
definition covers both platform variants. -/
def lock_shared {α : Type} (flockImpl : Nat → α) : α :=
  flockImpl LOCK_SH

/-- Embedding of `FdLock::lock_exclusive`: `self.flock(libc::LOCK_EX)`. -/
def lock_exclusive {α : Type} (flockImpl : Nat → α) : α :=
  flockImpl LOCK_EX

/-- Embedding of `FdLock::try_lock_shared`: `self.flock(libc::LOCK_SH | libc::LOCK_NB)`. -/
def try_lock_shared {α : Type} (flockImpl : Nat → α) : α :=
  flockImpl (LOCK_SH ||| LOCK_NB)

/-- Embedding of `FdLock::try_lock_exclusive`: `self.flock(libc::LOCK_EX | libc::LOCK_NB)`. -/
def try_lock_exclusive {α : Type} (flockImpl : Nat → α) : α :=
  flockImpl (LOCK_EX ||| LOCK_NB)

/-- Embedding of `FdLock::unlock`: `self.flock(libc::LOCK_UN)`. -/
def unlock {α : Type} (flockImpl : Nat → α) : α :=
  flockImpl LOCK_UN

/-- Filesystem and lock-table state for the `Pid` model.  `files` maps paths
to file contents (first binding wins, see `fsGet`); `locked` is the set of
paths whose open handle holds the exclusive advisory lock acquired by this
process. -/
structure SysState where
  files : List (String × String)
  locked : List String
deriving DecidableEq, Repr

/-- Look up the content of the file at path `p` (`none` = no such file). -/
def fsGet : List (String × String) → String → Option String
  | [], _ => none
  | (k, v) :: rest, p => if k = p then some v else fsGet rest p

/-- Remove every binding for path `p` (models `std::fs::remove_file`). -/
def fsRemove : List (String × String) → String → List (String × String)
  | [], _ => []
  | (k, v) :: rest, p =>
    if k = p then fsRemove rest p else (k, v) :: fsRemove rest p

/-- Remove a path from the set of locked paths (models releasing the lock). -/
def lockRemove : List String → String → List String
  | [], _ => []
  | k :: rest, p => if k = p then lockRemove rest p else k :: lockRemove rest p

/-- Embedding of the `Pid` struct (src/pid.rs).  The owned `File` handle is
identified in the model by `file_path` (the state tracks per-path content
and lock status). -/
structure Pid where
  process_id : Nat
  file_path : String
deriving DecidableEq, Repr

/-- The path built by `Pid::new` (src/pid.rs line 90):
`format!("{path}/{name}.pid")`. -/
def pidFilePath (path name : String) : String :=
  path ++ "/" ++ name ++ ".pid"

/-- One OS-effect step attempted by `Pid::new`, in the order the source
performs them. -/
inductive PidStep where
  | create (p : String)
  | tryLockExclusive (p : String)
  | writeAll (p : String) (content : String)
deriving DecidableEq, Repr

/-- Environment for one run of `Pid::new`: the current process id as
returned by `std::process::id()`, and the outcome the OS gives each
fallible step (`none` = the step succeeds, `some e` = it fails with `e`). -/
structure PidEnv where
  pid : Nat
  createErr : Option IOError
  lockErr : Option IOError
  writeErr : Option IOError
deriving DecidableEq, Repr

/-- Embedding of `Pid::new` (src/pid.rs lines 88-99):

```
let pid = std::process::id();
let file_path = format!("{path}/{name}.pid");
let mut file = std::fs::File::create(file_path.clone())?;
file.try_lock_exclusive()?;
file.write_all(format!("{pid}").as_bytes())?;
Ok(Self { process_id: pid, file_path, file })
```

`File::create` is the truncating create: on success the file exists with
empty content.  `try_lock_exclusive` is the `FdLock` method (a single
`flock(LOCK_EX | LOCK_NB)` call, see `try_lock_exclusive`); on success the
path enters the locked set.  `write_all` on success replaces the content
with the decimal representation of the pid (`format!("{pid}")`, i.e.
`Nat.repr`).  Each `?` propagates the step's error and aborts.  The third
component of the result is the ordered trace of attempted steps. -/
def Pid.new (env : PidEnv) (path name : String) (st : SysState) :
    Except IOError Pid × SysState × List PidStep :=
  let pid := env.pid
  let file_path := pidFilePath path name
  match env.createErr with
  | some e => (.error e, st, [.create file_path])
  | none =>
    let st1 : SysState := { st with files := (file_path, "") :: st.files }
    match env.lockErr with
    | some e => (.error e, st1, [.create file_path, .tryLockExclusive file_path])
    | none =>
      let st2 : SysState := { st1 with locked := file_path :: st1.locked }
      match env.writeErr with
      | some e =>
        (.error e, st2,
         [.create file_path, .tryLockExclusive file_path,
          .writeAll file_path (Nat.repr pid)])
      | none =>
        let st3 : SysState :=
          { st2 with files := (file_path, Nat.repr pid) :: st2.files }
        (.ok { process_id := pid, file_path := file_path }, st3,
         [.create file_path, .tryLockExclusive file_path,
          .writeAll file_path (Nat.repr pid)])

/-- One OS-effect step attempted by `Drop for Pid`. -/
inductive DropStep where
  | unlockStep (p : String)
  | removeFileStep (p : String)
deriving DecidableEq, Repr

/-- Environment for one run of `drop`: the outcome the OS gives each of the
two steps. -/
structure DropEnv where
  unlockErr : Option IOError
  removeErr : Option IOError
deriving DecidableEq, Repr

/-- Embedding of `impl Drop for Pid` (src/pid.rs lines 102-107):

```
fn drop(&mut self) {
    self.file.unlock().unwrap();
    std::fs::remove_file(self.file_path.clone()).unwrap();
}
```

Each `.unwrap()` panics on error, aborting the drop: the result is `none`
(panic — the error is fatal, not swallowed) or `some st` (both steps
succeeded).  The trace lists the steps attempted in order; a step after a
panic is never attempted. -/
def Pid.dropRun (env : DropEnv) (p : Pid) (st : SysState) :
    Option SysState × List DropStep :=
  match env.unlockErr with
  | some _ => (none, [.unlockStep p.file_path])
  | none =>
    let st1 : SysState := { st with locked := lockRemove st.locked p.file_path }
    match env.removeErr with
    | some _ => (none, [.unlockStep p.file_path, .removeFileStep p.file_path])
    | none =>
      let st2 : SysState := { st1 with files := fsRemove st1.files p.file_path }
      (some st2, [.unlockStep p.file_path, .removeFileStep p.file_path])

/- ------------------------------------------------------------------ -/
/- Helper lemmas -/
/- ------------------------------------------------------------------ -/

/-- Looking up a path after removing it yields nothing. -/
theorem fsGet_fsRemove (fs : List (String × String)) (p : String) :
    fsGet (fsRemove fs p) p = none := by
  induction fs with
  | nil => rfl
  | cons kv rest ih =>
    obtain ⟨k, v⟩ := kv
    by_cases h : k = p
    · simp [fsRemove, h, ih]
    · simp [fsRemove, fsGet, h, ih]

/-- A path removed from the locked set is no longer a member. -/
theorem not_mem_lockRemove (l : List String) (p : String) :
    p ∉ lockRemove l p := by
  induction l with
  | nil => simp [lockRemove]
  | cons k rest ih =>
    by_cases h : k = p
    · simpa [lockRemove, h] using ih
    · simp [lockRemove, h, ih]
      exact fun hc => h hc.symm

/- ------------------------------------------------------------------ -/
/- Claim theorems: lock capability -/
/- ------------------------------------------------------------------ -/

/-- C4: evaluation of the Solaris emulation path at the unlock operation.
The record handed to the `fcntl` syscall carries `l_type = LOCK_UN` (value
8, the `flock()` operation code), while the remove-record-lock type of the
record-locking primitive is `F_UNLCK` (value 3): the code does not map
unlock to the remove-record-lock type as the specification states.  (The
exclusive and shared mappings and the non-blocking command selection do
follow the specification; the waiting command `F_SETLKW` is chosen here
since `LOCK_UN` has no non-blocking bit.) -/
theorem solaris_unlock_ltype_not_F_UNLCK :
    (flockSolaris 3 LOCK_UN (fun _ _ _ => (0, 0))).2 =
      [(3, F_SETLKW, { flockRecZero with l_type := LOCK_UN })] ∧
    LOCK_UN ≠ F_UNLCK := by
  constructor
  · rfl
  · decide

/-- C5: on the Solaris emulation path, an operation code containing none of
the `LOCK_UN`, `LOCK_EX`, `LOCK_SH` bits yields the distinct
`unsupported` error ("unexpected flock() operation") with an empty syscall
trace — no OS syscall is invoked, for every syscall oracle.  The error is
built with the `IOError.unsupported` constructor, distinct from the
`IOError.osError` constructor used for OS-reported failures. -/
theorem solaris_invalid_op_unsupported (operation : Nat)
    (h1 : operation &&& LOCK_UN = 0) (h2 : operation &&& LOCK_EX = 0)
    (h3 : operation &&& LOCK_SH = 0) (fd : Int)
    (sys : Int → Nat → FlockRec → Int × Int) :
    flockSolaris fd operation sys =
      (.error (.unsupported "unexpected flock() operation"), []) := by
  simp [flockSolaris, h1, h2, h3]

/-- Witness for C5 at the concrete operation code `LOCK_NB` (4), which has
none of the three lock-kind bits. -/
theorem solaris_invalid_op_unsupported_witness :
    LOCK_NB &&& LOCK_UN = 0 ∧ LOCK_NB &&& LOCK_EX = 0 ∧
    LOCK_NB &&& LOCK_SH = 0 ∧
    flockSolaris 7 LOCK_NB (fun _ _ _ => (0, 0)) =
      (.error (.unsupported "unexpected flock() operation"), []) :=
  ⟨by decide, by decide, by decide,
   solaris_invalid_op_unsupported LOCK_NB (by decide) (by decide) (by decide)
     7 (fun _ _ _ => (0, 0))⟩

/-- C6: each of the five public lock operations is exactly one call to the
primitive `flock` with the corresponding composed operation code:
`lock_shared` passes `LOCK_SH`, `lock_exclusive` passes `LOCK_EX`,
`try_lock_shared` passes `LOCK_SH ||| LOCK_NB`, `try_lock_exclusive`
passes `LOCK_EX ||| LOCK_NB`, and `unlock` passes `LOCK_UN`, for any
platform implementation of the primitive. -/
theorem five_ops_single_flock_call {α : Type} (flockImpl : Nat → α) :
    lock_shared flockImpl = flockImpl LOCK_SH ∧
    lock_exclusive flockImpl = flockImpl LOCK_EX ∧
    try_lock_shared flockImpl = flockImpl (LOCK_SH ||| LOCK_NB) ∧
    try_lock_exclusive flockImpl = flockImpl (LOCK_EX ||| LOCK_NB) ∧
    unlock flockImpl = flockImpl LOCK_UN :=
  ⟨rfl, rfl, rfl, rfl, rfl⟩

/-- C7: the primitive `flock` converts a negative syscall return into an
error carrying the OS's last error code, and returns success otherwise; the
result is exactly that conversion of the single syscall's outcome, so the
error is neither discarded nor retried.  This holds for every operation
code on the primary path, and on the Solaris emulation path for every
operation code that reaches the syscall (one with a lock-kind bit set). -/
theorem flock_error_conversion (fd : Int) (operation : Nat) (ret errno : Int) :
    (flockPrimary fd operation (fun _ _ => (ret, errno))).1 =
      (if ret < 0 then .error (.osError errno) else .ok ()) ∧
    ((operation &&& LOCK_UN ≠ 0 ∨ operation &&& LOCK_EX ≠ 0 ∨
        operation &&& LOCK_SH ≠ 0) →
      (flockSolaris fd operation (fun _ _ _ => (ret, errno))).1 =
        (if ret < 0 then .error (.osError errno) else .ok ())) := by
  refine ⟨rfl, fun hvalid => ?_⟩
  by_cases hu : operation &&& LOCK_UN ≠ 0
  · simp [flockSolaris, hu, flockSolarisCall]
  · by_cases he : operation &&& LOCK_EX ≠ 0
    · simp [flockSolaris, hu, he, flockSolarisCall]
    · have hs : operation &&& LOCK_SH ≠ 0 := by tauto
      simp [flockSolaris, hu, he, hs, flockSolarisCall]

/-- Witness for C7 at a concrete failing syscall: operation `LOCK_EX`,
return value `-1`, errno `11` (EAGAIN). -/
theorem flock_error_conversion_witness :
    (LOCK_EX &&& LOCK_UN ≠ 0 ∨ LOCK_EX &&& LOCK_EX ≠ 0 ∨
      LOCK_EX &&& LOCK_SH ≠ 0) ∧
    (flockPrimary 5 LOCK_EX (fun _ _ => (-1, 11))).1 = .error (.osError 11) ∧
    (flockSolaris 5 LOCK_EX (fun _ _ _ => (-1, 11))).1 = .error (.osError 11) := by
  have h := flock_error_conversion 5 LOCK_EX (-1) 11
  refine ⟨by decide, ?_, ?_⟩
  · rw [h.1, if_pos (by norm_num)]
  · rw [h.2 (by decide), if_pos (by norm_num)]

/-- C10: the primary (non-Solaris) `flock` invokes the syscall exactly once
with the caller's operation code passed verbatim (the trace is the single
pair of the raw fd and the unmodified code), performs no validation, and
its result is decided solely by the syscall's return value: an `osError`
with the last errno when the return is negative, success otherwise — in
particular the `unsupported` error is never produced on this path. -/
theorem flockPrimary_no_validation (fd : Int) (operation : Nat)
    (sys : Int → Nat → Int × Int) :
    (flockPrimary fd operation sys).2 = [(fd, operation)] ∧
    (flockPrimary fd operation sys).1 =
      (if (sys fd operation).1 < 0 then .error (.osError (sys fd operation).2)
       else .ok ()) :=
  ⟨rfl, rfl⟩

/- ------------------------------------------------------------------ -/
/- Claim theorems: PID file lifecycle -/
/- ------------------------------------------------------------------ -/

/-- C1: whenever `Pid::new` returns an instance, the post-construction state
satisfies the invariant: the file at the instance's `file_path` exists and
its entire content is exactly `Nat.repr process_id` — the decimal digit
string of the process id, with no trailing newline or other terminator —
the path is in the set of paths locked by this process, the lock was taken
by the non-blocking exclusive `try_lock_exclusive` step, and `process_id`
is the process id captured from the environment. -/
theorem pid_new_invariant (env : PidEnv) (path name : String) (st : SysState)
    (p : Pid) (st2 : SysState) (tr : List PidStep)
    (h : Pid.new env path name st = (.ok p, st2, tr)) :
    fsGet st2.files p.file_path = some (Nat.repr p.process_id) ∧
    p.file_path ∈ st2.locked ∧
    PidStep.tryLockExclusive p.file_path ∈ tr ∧
    p.process_id = env.pid ∧
    p.file_path = pidFilePath path name := by
  cases h1 : env.createErr with
  | some e => simp [Pid.new, h1] at h
  | none =>
    cases h2 : env.lockErr with
    | some e => simp [Pid.new, h1, h2] at h
    | none =>
      cases h3 : env.writeErr with
      | some e => simp [Pid.new, h1, h2, h3] at h
      | none =>
        simp only [Pid.new, h1, h2, h3, Prod.mk.injEq, Except.ok.injEq] at h
        obtain ⟨hp, hst, htr⟩ := h
        subst hp hst htr
        refine ⟨by simp [fsGet], by simp, by simp, rfl, rfl⟩

/-- Witness for C1: a concrete successful construction with pid 42 in
directory "run" with name "app". -/
theorem pid_new_invariant_witness :
    fsGet [("run/app.pid", "42"), ("run/app.pid", "")] "run/app.pid" =
      some "42" ∧
    "run/app.pid" ∈ ["run/app.pid"] ∧
    PidStep.tryLockExclusive "run/app.pid" ∈
      [PidStep.create "run/app.pid", PidStep.tryLockExclusive "run/app.pid",
       PidStep.writeAll "run/app.pid" "42"] ∧
    (42 : Nat) = 42 ∧
    "run/app.pid" = pidFilePath "run" "app" :=
  pid_new_invariant ⟨42, none, none, none⟩ "run" "app" ⟨[], []⟩
    ⟨42, "run/app.pid"⟩
    ⟨[("run/app.pid", "42"), ("run/app.pid", "")], ["run/app.pid"]⟩
    [PidStep.create "run/app.pid", PidStep.tryLockExclusive "run/app.pid",
     PidStep.writeAll "run/app.pid" "42"]
    rfl

/-- C2: `Pid::new` performs its steps in order — capture the pid, build
`file_path` as `"{directory}/{name}.pid"`, truncate-create, non-blocking
exclusive lock, write the decimal pid — and each outcome is fully
characterized: whichever step fails first, its error is returned together
with the trace cut at that step, and only when all steps succeed is a `Pid`
instance (carrying the captured pid and the built path) returned. -/
theorem pid_new_step_order (env : PidEnv) (path name : String) (st : SysState) :
    pidFilePath path name = path ++ "/" ++ name ++ ".pid" ∧
    (∀ e, env.createErr = some e →
      Pid.new env path name st =
        (.error e, st, [.create (pidFilePath path name)])) ∧
    (∀ e, env.createErr = none → env.lockErr = some e →
      Pid.new env path name st =
        (.error e,
         { st with files := (pidFilePath path name, "") :: st.files },
         [.create (pidFilePath path name),
          .tryLockExclusive (pidFilePath path name)])) ∧
    (∀ e, env.createErr = none → env.lockErr = none → env.writeErr = some e →
      Pid.new env path name st =
        (.error e,
         ⟨(pidFilePath path name, "") :: st.files,
          pidFilePath path name :: st.locked⟩,
         [.create (pidFilePath path name),
          .tryLockExclusive (pidFilePath path name),
          .writeAll (pidFilePath path name) (Nat.repr env.pid)])) ∧
    (env.createErr = none → env.lockErr = none → env.writeErr = none →
      Pid.new env path name st =
        (.ok ⟨env.pid, pidFilePath path name⟩,
         ⟨(pidFilePath path name, Nat.repr env.pid) ::
            (pidFilePath path name, "") :: st.files,
          pidFilePath path name :: st.locked⟩,
         [.create (pidFilePath path name),
          .tryLockExclusive (pidFilePath path name),
          .writeAll (pidFilePath path name) (Nat.repr env.pid)])) := by
  refine ⟨rfl, ?_, ?_, ?_, ?_⟩
  · intro e h1
    simp [Pid.new, h1]
  · intro e h1 h2
    simp [Pid.new, h1, h2]
  · intro e h1 h2 h3
    simp [Pid.new, h1, h2, h3]
  · intro h1 h2 h3
    simp [Pid.new, h1, h2, h3]

/-- Witness for C2: one concrete run per outcome (create fails, lock fails,
write fails, all succeed), with pid 7, directory "d", name "n". -/
theorem pid_new_step_order_witness :
    Pid.new ⟨7, some (IOError.osError 2), none, none⟩ "d" "n" ⟨[], []⟩ =
      (.error (IOError.osError 2), ⟨[], []⟩,
       [.create (pidFilePath "d" "n")]) ∧
    Pid.new ⟨7, none, some (IOError.osError 11), none⟩ "d" "n" ⟨[], []⟩ =
      (.error (IOError.osError 11), ⟨[(pidFilePath "d" "n", "")], []⟩,
       [.create (pidFilePath "d" "n"),
        .tryLockExclusive (pidFilePath "d" "n")]) ∧
    Pid.new ⟨7, none, none, some (IOError.osError 5)⟩ "d" "n" ⟨[], []⟩ =
      (.error (IOError.osError 5),
       ⟨[(pidFilePath "d" "n", "")], [pidFilePath "d" "n"]⟩,
       [.create (pidFilePath "d" "n"),
        .tryLockExclusive (pidFilePath "d" "n"),
        .writeAll (pidFilePath "d" "n") (Nat.repr 7)]) ∧
    Pid.new ⟨7, none, none, none⟩ "d" "n" ⟨[], []⟩ =
      (.ok ⟨7, pidFilePath "d" "n"⟩,
       ⟨[(pidFilePath "d" "n", Nat.repr 7), (pidFilePath "d" "n", "")],
        [pidFilePath "d" "n"]⟩,
       [.create (pidFilePath "d" "n"),
        .tryLockExclusive (pidFilePath "d" "n"),
        .writeAll (pidFilePath "d" "n") (Nat.repr 7)]) :=
  ⟨(pid_new_step_order ⟨7, some (IOError.osError 2), none, none⟩ "d" "n"
      ⟨[], []⟩).2.1 (IOError.osError 2) rfl,
   (pid_new_step_order ⟨7, none, some (IOError.osError 11), none⟩ "d" "n"
      ⟨[], []⟩).2.2.1 (IOError.osError 11) rfl rfl,
   (pid_new_step_order ⟨7, none, none, some (IOError.osError 5)⟩ "d" "n"
      ⟨[], []⟩).2.2.2.1 (IOError.osError 5) rfl rfl rfl,
   (pid_new_step_order ⟨7, none, none, none⟩ "d" "n"
      ⟨[], []⟩).2.2.2.2 rfl rfl rfl⟩

/-- C8: if the create step of `Pid::new` succeeds but the lock attempt or
the content write fails, the error is returned and the file created at
`file_path` is still present in the resulting filesystem state — the
operation does not remove the just-created (truncated, hence empty) file. -/
theorem pid_new_keeps_file_on_failure (env : PidEnv) (path name : String)
    (st : SysState) (hc : env.createErr = none)
    (hfail : env.lockErr ≠ none ∨ env.writeErr ≠ none) :
    ∃ e st2 tr, Pid.new env path name st = (.error e, st2, tr) ∧
      fsGet st2.files (pidFilePath path name) = some "" := by
  cases h2 : env.lockErr with
  | some e =>
    refine ⟨e, { st with files := (pidFilePath path name, "") :: st.files },
            [.create (pidFilePath path name),
             .tryLockExclusive (pidFilePath path name)],
            by simp [Pid.new, hc, h2], by simp [fsGet]⟩
  | none =>
    cases h3 : env.writeErr with
    | some e =>
      refine ⟨e, ⟨(pidFilePath path name, "") :: st.files,
                  pidFilePath path name :: st.locked⟩,
              [.create (pidFilePath path name),
               .tryLockExclusive (pidFilePath path name),
               .writeAll (pidFilePath path name) (Nat.repr env.pid)],
              by simp [Pid.new, hc, h2, h3], by simp [fsGet]⟩
    | none =>
      rcases hfail with hf | hf
      · exact absurd h2 hf
      · exact absurd h3 hf

/-- Witness for C8: create succeeds, the non-blocking exclusive lock fails
with EAGAIN (code 11); the file remains. -/
theorem pid_new_keeps_file_on_failure_witness :
    ((⟨7, none, some (IOError.osError 11), none⟩ : PidEnv).createErr
       = none) ∧
    ((⟨7, none, some (IOError.osError 11), none⟩ : PidEnv).lockErr ≠ none ∨
     (⟨7, none, some (IOError.osError 11), none⟩ : PidEnv).writeErr ≠ none) ∧
    ∃ e st2 tr,
      Pid.new ⟨7, none, some (IOError.osError 11), none⟩ "d" "n" ⟨[], []⟩ =
        (.error e, st2, tr) ∧
      fsGet st2.files (pidFilePath "d" "n") = some "" :=
  ⟨rfl, .inl (by decide),
   pid_new_keeps_file_on_failure ⟨7, none, some (IOError.osError 11), none⟩
     "d" "n" ⟨[], []⟩ rfl (.inl (by decide))⟩

/-- C9: `Pid::new` truncate-creates the file before attempting the
exclusive lock: starting from a state where the file at `file_path` holds
some previous content, if the create succeeds and the lock attempt then
fails, the operation returns the lock error, and in the resulting state the
file still exists but with empty content — the previous content has been
erased by the truncating create. -/
theorem pid_new_truncates_before_lock (env : PidEnv) (path name : String)
    (st : SysState) (old : String) (e : IOError)
    (hold : fsGet st.files (pidFilePath path name) = some old)
    (hc : env.createErr = none) (hl : env.lockErr = some e) :
    Pid.new env path name st =
      (.error e, { st with files := (pidFilePath path name, "") :: st.files },
       [.create (pidFilePath path name),
        .tryLockExclusive (pidFilePath path name)]) ∧
    fsGet ((pidFilePath path name, "") :: st.files) (pidFilePath path name) =
      some "" := by
  exact ⟨by simp [Pid.new, hc, hl], by simp [fsGet]⟩

/-- Witness for C9: the file initially holds "999" (a previous holder's
content); the lock attempt fails with EAGAIN; the content is now empty. -/
theorem pid_new_truncates_before_lock_witness :
    fsGet [(pidFilePath "d" "n", "999")] (pidFilePath "d" "n") =
      some "999" ∧
    ((⟨7, none, some (IOError.osError 11), none⟩ : PidEnv).createErr
       = none) ∧
    ((⟨7, none, some (IOError.osError 11), none⟩ : PidEnv).lockErr
       = some (IOError.osError 11)) ∧
    (Pid.new ⟨7, none, some (IOError.osError 11), none⟩ "d" "n"
        ⟨[(pidFilePath "d" "n", "999")], []⟩ =
      (.error (IOError.osError 11),
       ⟨[(pidFilePath "d" "n", ""), (pidFilePath "d" "n", "999")], []⟩,
       [.create (pidFilePath "d" "n"),
        .tryLockExclusive (pidFilePath "d" "n")]) ∧
     fsGet [(pidFilePath "d" "n", ""), (pidFilePath "d" "n", "999")]
       (pidFilePath "d" "n") = some "") :=
  ⟨by simp [fsGet], rfl, rfl,
   pid_new_truncates_before_lock ⟨7, none, some (IOError.osError 11), none⟩
     "d" "n" ⟨[(pidFilePath "d" "n", "999")], []⟩ "999" (IOError.osError 11)
     (by simp [fsGet]) rfl rfl⟩

/-- C3: `Drop for Pid` first releases the lock and then removes the file,
in that order, and a failure at either step is fatal (the `unwrap` panics;
the result is `none`, the failure is never swallowed): if the unlock fails,
the drop panics having attempted only the unlock step; if the unlock
succeeds and the removal fails, it panics after attempting both steps in
order; if both succeed, the file at `file_path` no longer exists and the
path is no longer locked. -/
theorem pid_drop_spec (env : DropEnv) (p : Pid) (st : SysState) :
    (∀ e, env.unlockErr = some e →
      Pid.dropRun env p st = (none, [.unlockStep p.file_path])) ∧
    (∀ e, env.unlockErr = none → env.removeErr = some e →
      Pid.dropRun env p st =
        (none, [.unlockStep p.file_path, .removeFileStep p.file_path])) ∧
    (env.unlockErr = none → env.removeErr = none →
      Pid.dropRun env p st =
        (some ⟨fsRemove st.files p.file_path, lockRemove st.locked p.file_path⟩,
         [.unlockStep p.file_path, .removeFileStep p.file_path]) ∧
      fsGet (fsRemove st.files p.file_path) p.file_path = none ∧
      p.file_path ∉ lockRemove st.locked p.file_path) := by
  refine ⟨?_, ?_, ?_⟩
  · intro e h1
    simp [Pid.dropRun, h1]
  · intro e h1 h2
    simp [Pid.dropRun, h1, h2]
  · intro h1 h2
    exact ⟨by simp [Pid.dropRun, h1, h2],
           fsGet_fsRemove st.files p.file_path,
           not_mem_lockRemove st.locked p.file_path⟩

/-- Witness for C3: three concrete drops of the instance ⟨7, "d/n.pid"⟩ —
unlock fails, removal fails, both succeed. -/
theorem pid_drop_spec_witness :
    Pid.dropRun ⟨some (IOError.osError 1), none⟩ ⟨7, "d/n.pid"⟩
        ⟨[("d/n.pid", "7")], ["d/n.pid"]⟩ =
      (none, [DropStep.unlockStep "d/n.pid"]) ∧
    Pid.dropRun ⟨none, some (IOError.osError 1)⟩ ⟨7, "d/n.pid"⟩
        ⟨[("d/n.pid", "7")], ["d/n.pid"]⟩ =
      (none, [DropStep.unlockStep "d/n.pid",
              DropStep.removeFileStep "d/n.pid"]) ∧
    (Pid.dropRun ⟨none, none⟩ ⟨7, "d/n.pid"⟩
        ⟨[("d/n.pid", "7")], ["d/n.pid"]⟩ =
      (some ⟨fsRemove [("d/n.pid", "7")] "d/n.pid",
             lockRemove ["d/n.pid"] "d/n.pid"⟩,
       [DropStep.unlockStep "d/n.pid",
        DropStep.removeFileStep "d/n.pid"]) ∧
     fsGet (fsRemove [("d/n.pid", "7")] "d/n.pid") "d/n.pid" = none ∧
     "d/n.pid" ∉ lockRemove ["d/n.pid"] "d/n.pid") :=
  ⟨(pid_drop_spec ⟨some (IOError.osError 1), none⟩ ⟨7, "d/n.pid"⟩
      ⟨[("d/n.pid", "7")], ["d/n.pid"]⟩).1 (IOError.osError 1) rfl,
   (pid_drop_spec ⟨none, some (IOError.osError 1)⟩ ⟨7, "d/n.pid"⟩
      ⟨[("d/n.pid", "7")], ["d/n.pid"]⟩).2.1 (IOError.osError 1) rfl rfl,
   (pid_drop_spec ⟨none, none⟩ ⟨7, "d/n.pid"⟩
      ⟨[("d/n.pid", "7")], ["d/n.pid"]⟩).2.2 rfl rfl⟩
